import Mathlib

/-!
A shallow embedding of the cheery-json decoder (src/src/lib.rs): a
table-driven streaming JSON parser with an explicit control stack, a value
stack and two text accumulators.  Rust machine integers are modelled as
Nat/Int with explicit range checks where the source checks them; a Rust
String is modelled as a Lean String (a sequence of unicode scalar values,
as in Rust); a Rust panic and the fuel bounding the reduction loop of the
driver are explicit outcomes.  The generated tables module of the crate is
not among the source files; the three tables are therefore taken as
parameters of the driver, and one concrete instance is modelled from the
spec for evaluating the decoder on concrete inputs.
-/

namespace CheeryJson

/-- The error taxonomy of the decoder (JsonError in the source).  The
payload of IOFailure (a Rust io::Error) is omitted: the byte source is
external to the decoder and no error of that kind is ever built here. -/
inductive JsonError where
  | Truncated
  | NoObjects
  | MultipleObjects
  | Syntax
  | InvalidEscape (s : String)
  | IOFailure
deriving DecidableEq

/-- The decoded value model (Value in the source).  The object payload
models a BTreeMap with String keys as an association list kept sorted by
key; the float payload keeps the accumulated literal text (the
floating-point value itself is outside the model, and no claim concerns
it). -/
inductive Value where
  | null
  | bool (b : Bool)
  | int (n : Int)
  | float (lit : String)
  | string (s : String)
  | list (l : List Value)
  | object (o : List (String × Value))

/-- The mutable context of a parse call: the data stack ds (top first),
the string accumulator ss and the escape accumulator es. -/
structure PState where
  ds : List Value
  ss : String
  es : String

/-- One decimal digit as a character. -/
def decDigit (n : Nat) : Char := Char.ofNat (48 + n)

/-- Rust Display for a u8: the byte value printed as a decimal numeral
(this is what the format string of the invalid-escape error applies to the
current byte, which has type u8 in the source). -/
def u8Dec (n : Nat) : String :=
  if n < 10 then String.mk [decDigit n]
  else if n < 100 then String.mk [decDigit (n / 10), decDigit (n % 10)]
  else String.mk [decDigit (n / 100), decDigit (n / 10 % 10), decDigit (n % 10)]

/-- Accumulation loop of Rust decimal integer parsing: every character
must be a decimal digit. -/
def goDigits : List Char → Nat → Option Nat
  | [], acc => some acc
  | c :: cs, acc =>
    if 48 ≤ c.toNat ∧ c.toNat ≤ 57 then goDigits cs (acc * 10 + (c.toNat - 48))
    else none

/-- Rust str::parse for i64 (FromStr): an optional sign, then one or more
decimal digits, and the value must fit the signed 64-bit range (Rust
checks overflow at every accumulation step; over Nat that is equivalent to
the final bound check). -/
def parseI64 (s : String) : Option Int :=
  match s.data with
  | [] => none
  | c :: rest =>
    if c = Char.ofNat 43 then
      match rest, goDigits rest 0 with
      | _ :: _, some n => if n ≤ 9223372036854775807 then some (n : Int) else none
      | _, _ => none
    else if c = Char.ofNat 45 then
      match rest, goDigits rest 0 with
      | _ :: _, some n => if n ≤ 9223372036854775808 then some (-(n : Int)) else none
      | _, _ => none
    else
      match goDigits (c :: rest) 0 with
      | some n => if n ≤ 9223372036854775807 then some (n : Int) else none
      | none => none

/-- One hexadecimal digit (0-9, a-f, A-F). -/
def hexVal (c : Char) : Option Nat :=
  if 48 ≤ c.toNat ∧ c.toNat ≤ 57 then some (c.toNat - 48)
  else if 97 ≤ c.toNat ∧ c.toNat ≤ 102 then some (c.toNat - 87)
  else if 65 ≤ c.toNat ∧ c.toNat ≤ 70 then some (c.toNat - 55)
  else none

/-- Accumulation loop of Rust hexadecimal parsing. -/
def goHex : List Char → Nat → Option Nat
  | [], acc => some acc
  | c :: cs, acc =>
    match hexVal c with
    | some d => goHex cs (acc * 16 + d)
    | none => none

/-- Rust u16::from_str_radix with radix 16: an optional plus sign, then
one or more hexadecimal digits, value at most 0xFFFF (a minus sign is not
accepted for an unsigned type). -/
def parseU16Hex (s : String) : Option Nat :=
  match s.data with
  | [] => none
  | c :: rest =>
    if c = Char.ofNat 43 then
      match rest, goHex rest 0 with
      | _ :: _, some n => if n ≤ 65535 then some n else none
      | _, _ => none
    else
      match goHex (c :: rest) 0 with
      | some n => if n ≤ 65535 then some n else none
      | none => none

/-- Every character is a decimal digit (vacuously true of the empty run). -/
def digitsB : List Char → Bool
  | [] => true
  | c :: cs => if 48 ≤ c.toNat ∧ c.toNat ≤ 57 then digitsB cs else false

/-- Split a leading run of decimal digits off a character list. -/
def splitDigits : List Char → List Char × List Char
  | [] => ([], [])
  | c :: cs =>
    if 48 ≤ c.toNat ∧ c.toNat ≤ 57 then
      match splitDigits cs with
      | (d, r) => (c :: d, r)
    else ([], c :: cs)

/-- Strip one optional leading sign character. -/
def stripSign : List Char → List Char
  | [] => []
  | c :: rest => if c = Char.ofNat 43 ∨ c = Char.ofNat 45 then rest else c :: rest

/-- An optional exponent part: empty, or e/E, an optional sign and at
least one digit. -/
def isExpTail (l : List Char) : Bool :=
  match l with
  | [] => true
  | c :: cs =>
    if c = Char.ofNat 101 ∨ c = Char.ofNat 69 then
      match stripSign cs with
      | [] => false
      | d => digitsB d
    else false

/-- After the integer digits of a float literal: an optional fraction,
then an optional exponent. -/
def afterIntDigits : List Char → Bool
  | [] => true
  | c :: cs =>
    if c = Char.ofNat 46 then
      match splitDigits cs with
      | (_, r) => isExpTail r
    else isExpTail (c :: cs)

/-- Rust str::parse for f64, modelled lexically over the literal shapes
the automaton accumulates: an optional sign, one or more digits, an
optional fraction, an optional exponent.  The numeric value is
floating-point and stays outside the model; the literal text is kept. -/
def isF64Lit (s : String) : Bool :=
  match splitDigits (stripSign s.data) with
  | (_ :: _, r) => afterIntDigits r
  | ([], _) => false

/-- The float-parse of action 0xA: the literal is kept when it is
well-formed, and the unwrap panics otherwise. -/
def parseF64 (s : String) : Option String := if isF64Lit s then some s else none

/-- Three-way comparison on Nat. -/
def natCmp (a b : Nat) : Ordering :=
  if a < b then Ordering.lt else if b < a then Ordering.gt else Ordering.eq

/-- Lexicographic comparison of character lists, the String order of the
BTreeMap keys. -/
def charsCmp : List Char → List Char → Ordering
  | [], [] => Ordering.eq
  | [], _ :: _ => Ordering.lt
  | _ :: _, [] => Ordering.gt
  | a :: la, b :: lb =>
    match natCmp a.toNat b.toNat with
    | Ordering.eq => charsCmp la lb
    | o => o

/-- String comparison by characters. -/
def strCmp (a b : String) : Ordering := charsCmp a.data b.data

/-- BTreeMap::insert on the sorted association list: an existing key has
its value overwritten (last write wins). -/
def objInsert : List (String × Value) → String → Value → List (String × Value)
  | [], k, v => [(k, v)]
  | (k0, v0) :: rest, k, v =>
    match strCmp k k0 with
    | Ordering.lt => (k, v) :: (k0, v0) :: rest
    | Ordering.eq => (k, v) :: rest
    | Ordering.gt => (k0, v0) :: objInsert rest k v

/-- BTreeMap::get on the sorted association list. -/
def objLookup (k : String) : List (String × Value) → Option Value
  | [] => none
  | (k0, v0) :: rest =>
    match strCmp k k0 with
    | Ordering.eq => some v0
    | _ => objLookup k rest

/-- The outcome of one executor action.  ok and err carry the context
after the Rust mutations (an early Err return leaves the accumulators as
they were at that point); panicked models a Rust panic (a failed unwrap of
a parse, a wrong value-stack variant, or an unknown action code). -/
inductive ARes where
  | ok (st : PState)
  | err (e : JsonError) (st : PState)
  | panicked

/-- The action executor (do_action in the source): one case per action
code 0x1 to 0xE, in the order of the source match; any other code is the
decoder-bug panic. -/
def do_action (action : Nat) (ch : Nat) (st : PState) : ARes :=
  if action = 1 then ARes.ok { st with ds := Value.list [] :: st.ds }
  else if action = 2 then ARes.ok { st with ds := Value.object [] :: st.ds }
  else if action = 3 then
    match st.ds with
    | v :: Value.list l :: rest => ARes.ok { st with ds := Value.list (l ++ [v]) :: rest }
    | _ => ARes.panicked
  else if action = 4 then
    match st.ds with
    | v :: Value.string k :: Value.object o :: rest =>
      ARes.ok { st with ds := Value.object (objInsert o k v) :: rest }
    | _ => ARes.panicked
  else if action = 5 then ARes.ok { st with ds := Value.null :: st.ds }
  else if action = 6 then ARes.ok { st with ds := Value.bool true :: st.ds }
  else if action = 7 then ARes.ok { st with ds := Value.bool false :: st.ds }
  else if action = 8 then
    ARes.ok { ds := Value.string st.ss :: st.ds, ss := "", es := "" }
  else if action = 9 then
    match parseI64 st.ss with
    | some n => ARes.ok { st with ds := Value.int n :: st.ds, ss := "" }
    | none => ARes.panicked
  else if action = 10 then
    match parseF64 st.ss with
    | some lit => ARes.ok { st with ds := Value.float lit :: st.ds, ss := "" }
    | none => ARes.panicked
  else if action = 11 then ARes.ok { st with ss := st.ss.push (Char.ofNat ch) }
  else if action = 12 then ARes.ok { st with es := st.es.push (Char.ofNat ch) }
  else if action = 13 then
    if ch = 98 then ARes.ok { st with ss := st.ss.push (Char.ofNat 8), es := "" }
    else if ch = 116 then ARes.ok { st with ss := st.ss.push (Char.ofNat 9), es := "" }
    else if ch = 110 then ARes.ok { st with ss := st.ss.push (Char.ofNat 10), es := "" }
    else if ch = 102 then ARes.ok { st with ss := st.ss.push (Char.ofNat 12), es := "" }
    else if ch = 114 then ARes.ok { st with ss := st.ss.push (Char.ofNat 13), es := "" }
    else ARes.err (JsonError.InvalidEscape (("\\") ++ u8Dec ch)) st
  else if action = 14 then
    match parseU16Hex st.es with
    | some n =>
      if Nat.isValidChar n then ARes.ok { st with ss := st.ss.push (Char.ofNat n), es := "" }
      else ARes.err (JsonError.InvalidEscape (("\\u") ++ st.es)) st
    | none => ARes.err (JsonError.InvalidEscape (("\\u") ++ st.es)) st
  else ARes.panicked

/-- The three precomputed tables, taken as explicit parameters of the
driver (the source reads them as statics from its generated tables
module, which is not among the source files). -/
structure Tables where
  states : Nat → Nat → Nat
  gotos : Nat → Nat
  catcode : Nat → Nat

/-- An error surfaced by a run: a JsonError returned to the caller, a
Rust panic, or exhaustion of the fuel bounding the reduction loop (the
source loops forever on a malformed table; fuel makes that explicit). -/
inductive RtErr where
  | json (e : JsonError)
  | panicked
  | outOfFuel

/-- The guarded action call of the driver: action code 0 means no action. -/
def runAction (action : Nat) (ch : Nat) (st : PState) : ARes :=
  if 0 < action then do_action action ch st else ARes.ok st

/-- The outcome of one iteration of the driver loop: an error, a pure
reduction (pop, retry the same byte) or a byte-consuming shift. -/
inductive Step where
  | err (e : RtErr)
  | again (state : Nat) (stack : List Nat) (st : PState)
  | done (state : Nat) (stack : List Nat) (st : PState)

/-- The body of the parse_ch loop: look up the packed code, fail on the
all-ones sentinel, push the goto when the action half has its high bit,
run the action when nonzero, then pop (code 0xFF) or shift. -/
def parse_step (tbl : Tables) (cat ch : Nat) (stack : List Nat) (state : Nat)
    (st : PState) : Step :=
  let code0 := tbl.states state cat
  let action0 := code0 >>> 8 &&& 0xFF
  let code := code0 &&& 0xFF
  if action0 = 0xFF ∧ code = 0xFF then Step.err (RtErr.json JsonError.Syntax)
  else
    let stack1 := if 0x80 ≤ action0 then tbl.gotos state :: stack else stack
    let action := if 0x80 ≤ action0 then action0 - 0x80 else action0
    match runAction action ch st with
    | ARes.panicked => Step.err RtErr.panicked
    | ARes.err e _ => Step.err (RtErr.json e)
    | ARes.ok st1 =>
      if code = 0xFF then
        match stack1 with
        | [] => Step.err RtErr.panicked
        | top :: rest => Step.again top rest st1
      else Step.done code stack1 st1

/-- The driver (parse_ch in the source): iterate parse_step on the same
byte until a shift or an error, fuel bounding the reduction chain. -/
def parse_ch (tbl : Tables) :
    Nat → Nat → Nat → List Nat → Nat → PState → Except RtErr (Nat × List Nat × PState)
  | 0, _, _, _, _, _ => Except.error RtErr.outOfFuel
  | fuel + 1, cat, ch, stack, state, st =>
    match parse_step tbl cat ch stack state st with
    | Step.err e => Except.error e
    | Step.again state1 stack1 st1 => parse_ch tbl fuel cat ch stack1 state1 st1
    | Step.done state1 stack1 st1 => Except.ok (state1, stack1, st1)

/-- The byte loop of parse: each input byte is resolved to its category
(bytes above 0x7e clamp to the category of 0x7e) and fed to the driver. -/
def feedBytes (tbl : Tables) (fuel : Nat) :
    List Nat → Nat → List Nat → PState → Except RtErr (Nat × List Nat × PState)
  | [], state, stack, st => Except.ok (state, stack, st)
  | b :: rest, state, stack, st =>
    match parse_ch tbl fuel (tbl.catcode (min b 126)) b stack state st with
    | Except.error e => Except.error e
    | Except.ok (state1, stack1, st1) => feedBytes tbl fuel rest state1 stack1 st1

/-- Feeding of parse: every input byte in order, then the synthetic
end-of-input byte 0x3F with the category of the space character. -/
def feed (tbl : Tables) (fuel : Nat) (input : List Nat) :
    Except RtErr (Nat × List Nat × PState) :=
  match feedBytes tbl fuel input 0 [] ⟨[], "", ""⟩ with
  | Except.error e => Except.error e
  | Except.ok (state, stack, st) => parse_ch tbl fuel (tbl.catcode 32) 63 stack state st

/-- The entry point (parse in the source), generic in the tables: feed
everything, then demand the start state back and dispatch on the size of
the data stack. -/
def parseWith (tbl : Tables) (fuel : Nat) (input : List Nat) : Except RtErr Value :=
  match feed tbl fuel input with
  | Except.error e => Except.error e
  | Except.ok (state, _, st) =>
    if state ≠ 0 then Except.error (RtErr.json JsonError.Truncated)
    else
      match st.ds with
      | [] => Except.error (RtErr.json JsonError.NoObjects)
      | [v] => Except.ok v
      | _ => Except.error (RtErr.json JsonError.MultipleObjects)

/-- Modelled from the spec: the category table of the generated tables
module (not among the source files).  Each byte up to 0x7e maps to a small
category: whitespace, each punctuation byte, digits, the letters used by
keywords, escapes and hex digits, and a catch-all category 27 that also
stands for every byte clamped down to 0x7e. -/
def CATCODE (b : Nat) : Nat :=
  if b = 9 ∨ b = 10 ∨ b = 13 ∨ b = 32 then 0
  else if b = 123 then 1
  else if b = 125 then 2
  else if b = 91 then 3
  else if b = 93 then 4
  else if b = 44 then 5
  else if b = 58 then 6
  else if b = 34 then 7
  else if b = 92 then 8
  else if b = 47 then 9
  else if b = 45 then 10
  else if b = 43 then 11
  else if 48 ≤ b ∧ b ≤ 57 then 12
  else if b = 46 then 13
  else if b = 97 then 14
  else if b = 98 then 15
  else if b = 99 ∨ b = 100 then 16
  else if b = 101 then 17
  else if b = 102 then 18
  else if b = 108 then 19
  else if b = 110 then 20
  else if b = 114 then 21
  else if b = 115 then 22
  else if b = 116 then 23
  else if b = 117 then 24
  else if b = 65 ∨ b = 66 ∨ b = 67 ∨ b = 68 ∨ b = 70 then 25
  else if b = 69 then 26
  else 27

/-- Pack an action half and a control half into one table code. -/
def pack (a c : Nat) : Nat := a * 256 + c

/-- A category is a hexadecimal digit (for the four digits of a unicode
escape). -/
def isHexCat (cat : Nat) : Prop :=
  cat = 12 ∨ cat = 14 ∨ cat = 15 ∨ cat = 16 ∨ cat = 17 ∨ cat = 18 ∨ cat = 25 ∨ cat = 26

instance (cat : Nat) : Decidable (isHexCat cat) := by
  unfold isHexCat
  infer_instance

/-- Modelled from the spec: the transition-table row shared by every
state that expects a value (the root, after a colon, after an opening
bracket, after a comma in an array): whitespace self-loops; an opening
brace or bracket, a quote, a minus, a digit or a keyword head pushes the
goto of the calling state and enters the sub-construct. -/
def valueRow (selfState : Nat) (cat : Nat) : Nat :=
  if cat = 0 then pack 0 selfState
  else if cat = 1 then pack 130 2
  else if cat = 3 then pack 129 7
  else if cat = 7 then pack 128 10
  else if cat = 10 then pack 139 16
  else if cat = 12 then pack 139 17
  else if cat = 23 then pack 128 23
  else if cat = 18 then pack 128 26
  else if cat = 20 then pack 128 30
  else 0xFFFF

/-- Modelled from the spec: the transition table of the generated tables
module (not among the source files), realizing the standard JSON grammar
in the packed-code convention of the driver.  State 0 is the start/accept
state; state 1 reduces on any byte (a completed value); states 2-6 parse
an object, 7-9 an array, 10-15 and 33 a string and its escapes (state 33
resolves a completed unicode escape through the combined push-goto and
pop entry, retrying the byte in the string state), 16-22 a number, 23-32
the three keyword literals.  Entries absent from the grammar are the
all-ones sentinel. -/
def STATES (state cat : Nat) : Nat :=
  if state = 0 then valueRow 0 cat
  else if state = 1 then pack 0 255
  else if state = 2 then
    (if cat = 0 then pack 0 2
     else if cat = 7 then pack 128 10
     else if cat = 2 then pack 0 1
     else 0xFFFF)
  else if state = 3 then
    (if cat = 0 then pack 0 3 else if cat = 6 then pack 0 4 else 0xFFFF)
  else if state = 4 then valueRow 4 cat
  else if state = 5 then
    (if cat = 0 then pack 0 5
     else if cat = 5 then pack 4 6
     else if cat = 2 then pack 4 1
     else 0xFFFF)
  else if state = 6 then
    (if cat = 0 then pack 0 6 else if cat = 7 then pack 128 10 else 0xFFFF)
  else if state = 7 then (if cat = 4 then pack 0 1 else valueRow 7 cat)
  else if state = 8 then
    (if cat = 0 then pack 0 8
     else if cat = 5 then pack 3 9
     else if cat = 4 then pack 3 1
     else 0xFFFF)
  else if state = 9 then valueRow 9 cat
  else if state = 10 then
    (if cat = 7 then pack 8 1 else if cat = 8 then pack 0 11 else pack 11 10)
  else if state = 11 then
    (if cat = 7 ∨ cat = 8 ∨ cat = 9 then pack 11 10
     else if cat = 24 then pack 0 12
     else pack 13 10)
  else if state = 12 then (if isHexCat cat then pack 12 13 else 0xFFFF)
  else if state = 13 then (if isHexCat cat then pack 12 14 else 0xFFFF)
  else if state = 14 then (if isHexCat cat then pack 12 15 else 0xFFFF)
  else if state = 15 then (if isHexCat cat then pack 12 33 else 0xFFFF)
  else if state = 16 then (if cat = 12 then pack 11 17 else 0xFFFF)
  else if state = 17 then
    (if cat = 12 then pack 11 17
     else if cat = 13 then pack 11 18
     else if cat = 17 ∨ cat = 26 then pack 11 20
     else pack 9 255)
  else if state = 18 then (if cat = 12 then pack 11 19 else 0xFFFF)
  else if state = 19 then
    (if cat = 12 then pack 11 19
     else if cat = 17 ∨ cat = 26 then pack 11 20
     else pack 10 255)
  else if state = 20 then
    (if cat = 10 ∨ cat = 11 then pack 11 21
     else if cat = 12 then pack 11 22
     else 0xFFFF)
  else if state = 21 then (if cat = 12 then pack 11 22 else 0xFFFF)
  else if state = 22 then (if cat = 12 then pack 11 22 else pack 10 255)
  else if state = 23 then (if cat = 21 then pack 0 24 else 0xFFFF)
  else if state = 24 then (if cat = 24 then pack 0 25 else 0xFFFF)
  else if state = 25 then (if cat = 17 then pack 6 1 else 0xFFFF)
  else if state = 26 then (if cat = 14 then pack 0 27 else 0xFFFF)
  else if state = 27 then (if cat = 19 then pack 0 28 else 0xFFFF)
  else if state = 28 then (if cat = 22 then pack 0 29 else 0xFFFF)
  else if state = 29 then (if cat = 17 then pack 7 1 else 0xFFFF)
  else if state = 30 then (if cat = 24 then pack 0 31 else 0xFFFF)
  else if state = 31 then (if cat = 19 then pack 0 32 else 0xFFFF)
  else if state = 32 then (if cat = 19 then pack 5 1 else 0xFFFF)
  else if state = 33 then pack 142 255
  else 0xFFFF

/-- Modelled from the spec: the goto table of the generated tables module
(not among the source files): the state pushed on the control stack when
a value-start entry of the calling state requests recursive descent. -/
def GOTOS (state : Nat) : Nat :=
  if state = 0 then 0
  else if state = 2 then 3
  else if state = 4 then 5
  else if state = 6 then 3
  else if state = 7 then 8
  else if state = 9 then 8
  else if state = 33 then 10
  else 0

/-- The modelled table instance used by the entry point. -/
def jsonTables : Tables := ⟨STATES, GOTOS, CATCODE⟩

/-- The entry point with the modelled tables (parse in the source; input
is the byte sequence of the source, I/O failures of the byte source being
external to the decoder). -/
def parse (fuel : Nat) (input : List Nat) : Except RtErr Value :=
  parseWith jsonTables fuel input

/-- UTF-8 encoding of one unicode scalar value, byte values as Nat. -/
def utf8Enc (n : Nat) : List Nat :=
  if n < 128 then [n]
  else if n < 2048 then [192 + n / 64, 128 + n % 64]
  else if n < 65536 then [224 + n / 4096, 128 + n / 64 % 64, 128 + n % 64]
  else [240 + n / 262144, 128 + n / 4096 % 64, 128 + n / 64 % 64, 128 + n % 64]

/-- The UTF-8 bytes of a String, as a Rust String stores them. -/
def strUtf8 (s : String) : List Nat := (s.data.map (fun c => utf8Enc c.toNat)).flatten

/-- A lexically valid signed integer literal in the sense of the spec: an
optional leading minus sign followed by one or more decimal digits. -/
def isIntLit (s : String) : Bool :=
  match s.data with
  | [] => false
  | c :: rest =>
    if c = Char.ofNat 45 then
      match rest with
      | [] => false
      | _ => digitsB rest
    else digitsB (c :: rest)

/-- The numeric value of a decimal digit run, most significant first. -/
def digitsVal : List Char → Nat → Nat
  | [], acc => acc
  | c :: cs, acc => digitsVal cs (acc * 10 + (c.toNat - 48))

/-- The mathematical value of a lexically valid integer literal. -/
def intLitVal (s : String) : Int :=
  match s.data with
  | [] => 0
  | c :: rest =>
    if c = Char.ofNat 45 then -(digitsVal rest 0 : Int)
    else (digitsVal (c :: rest) 0 : Int)

/-! ## Supporting lemmas -/

theorem charsCmp_self (l : List Char) : charsCmp l l = Ordering.eq := by
  induction l with
  | nil => rfl
  | cons c cs ih => simp [charsCmp, natCmp, ih]

theorem strCmp_self (s : String) : strCmp s s = Ordering.eq := by
  simp [strCmp, charsCmp_self]

/-- Inserting then looking up the same key always finds the new value. -/
theorem objLookup_objInsert (o : List (String × Value)) (k : String) (v : Value) :
    objLookup k (objInsert o k v) = some v := by
  induction o with
  | nil => simp [objInsert, objLookup, strCmp_self]
  | cons p rest ih =>
    obtain ⟨k0, v0⟩ := p
    cases h : strCmp k k0 with
    | lt => simp [objInsert, h, objLookup, strCmp_self]
    | eq => simp [objInsert, h, objLookup, strCmp_self]
    | gt => simp [objInsert, h, objLookup, ih]

/-- On an all-digits run the Rust accumulation loop succeeds with the
run's value. -/
theorem goDigits_digitsB (l : List Char) :
    ∀ acc : Nat, digitsB l = true → goDigits l acc = some (digitsVal l acc) := by
  induction l with
  | nil => intro acc _; rfl
  | cons c cs ih =>
    intro acc h
    by_cases hc : 48 ≤ c.toNat ∧ c.toNat ≤ 57
    · rw [digitsB, if_pos hc] at h
      rw [goDigits, if_pos hc, digitsVal, ih _ h]
    · rw [digitsB, if_neg hc] at h
      exact absurd h (by decide)

/-- Rust i64 parsing succeeds on a lexically valid literal whose value
fits the signed 64-bit range. -/
theorem parseI64_eq_of_isIntLit (s : String) (h : isIntLit s = true)
    (h1 : -(9223372036854775808 : Int) ≤ intLitVal s)
    (h2 : intLitVal s ≤ 9223372036854775807) :
    parseI64 s = some (intLitVal s) := by
  rcases hl : s.data with _ | ⟨c, rest⟩
  · simp [isIntLit, hl] at h
  · have hs : s = String.mk (c :: rest) := by rw [← hl]
    subst hs
    rw [isIntLit] at h
    dsimp only at h
    rw [intLitVal] at h1 h2
    dsimp only at h1 h2
    rw [parseI64, intLitVal]
    dsimp only
    by_cases hm : c = Char.ofNat 45
    · subst hm
      rw [if_pos rfl] at h h1 h2
      rw [if_neg (show ¬ Char.ofNat 45 = Char.ofNat 43 by decide)]
      rw [if_pos rfl]
      rw [if_pos rfl]
      rcases rest with _ | ⟨r, rs⟩
      · dsimp only at h
        exact absurd h (by decide)
      · dsimp only at h
        have hb : digitsVal (r :: rs) 0 ≤ 9223372036854775808 := by omega
        rw [goDigits_digitsB _ 0 h]
        dsimp only
        rw [if_pos hb]
    · have hdg : digitsB (c :: rest) = true := by
        rw [if_neg hm] at h
        exact h
      have hc : 48 ≤ c.toNat ∧ c.toNat ≤ 57 := by
        by_contra hcn
        rw [digitsB, if_neg hcn] at hdg
        exact absurd hdg (by decide)
      have h43 : ¬ c = Char.ofNat 43 := by
        intro he
        rw [he] at hc
        exact absurd hc (by decide)
      rw [if_neg hm] at h1 h2
      rw [if_neg h43]
      rw [if_neg hm]
      rw [if_neg hm]
      rw [goDigits_digitsB _ 0 hdg]
      dsimp only
      have hb : digitsVal (c :: rest) 0 ≤ 9223372036854775807 := by omega
      rw [if_pos hb]

/-! ## Claims -/

/-- Claim C1: for every byte source, once parse has fed every input byte
and the synthetic whitespace-category byte through the automaton, it
returns Truncated exactly when the final state is not the start/accept
state 0; at state 0 it returns NoObjects on an empty value stack, the
single remaining value on a one-element stack, and MultipleObjects on a
longer stack; and decoding empty input returns the no-document error.
The finalization holds for every table instance; the empty-input part is
evaluated on the modelled tables. -/
theorem c1_parse_finalization :
    (∀ (tbl : Tables) (fuel : Nat) (input : List Nat) (state : Nat)
        (stack : List Nat) (st : PState),
      feed tbl fuel input = Except.ok (state, stack, st) →
      ((parseWith tbl fuel input = Except.error (RtErr.json JsonError.Truncated) ↔
          state ≠ 0) ∧
        (state = 0 → st.ds = [] →
          parseWith tbl fuel input = Except.error (RtErr.json JsonError.NoObjects)) ∧
        (state = 0 → ∀ v, st.ds = [v] → parseWith tbl fuel input = Except.ok v) ∧
        (state = 0 → 1 < st.ds.length →
          parseWith tbl fuel input =
            Except.error (RtErr.json JsonError.MultipleObjects)))) ∧
    (∀ fuel : Nat, parse (fuel + 1) [] = Except.error (RtErr.json JsonError.NoObjects)) := by
  constructor
  · intro tbl fuel input state stack st hfeed
    refine ⟨?_, ?_, ?_, ?_⟩
    · by_cases hs : state = 0
      · subst hs
        rcases hd : st.ds with _ | ⟨v, _ | ⟨w, tail⟩⟩ <;>
          simp [parseWith, hfeed, hd]
      · simp [parseWith, hfeed, hs]
    · intro hs hd
      subst hs
      simp [parseWith, hfeed, hd]
    · intro hs v hd
      subst hs
      simp [parseWith, hfeed, hd]
    · intro hs hlen
      subst hs
      rcases hd : st.ds with _ | ⟨v, _ | ⟨w, tail⟩⟩
      · rw [hd] at hlen
        simp at hlen
      · rw [hd] at hlen
        simp at hlen
      · simp [parseWith, hfeed, hd]
  · intro fuel
    rfl

/-- Witness for C1 at the empty input with the modelled tables. -/
theorem c1_parse_finalization_witness :
    feed jsonTables 1 [] = Except.ok (0, [], ⟨[], "", ""⟩) ∧
    parseWith jsonTables 1 [] = Except.error (RtErr.json JsonError.NoObjects) ∧
    parse 1 [] = Except.error (RtErr.json JsonError.NoObjects) :=
  ⟨rfl,
    (c1_parse_finalization.1 jsonTables 1 [] 0 [] ⟨[], "", ""⟩ rfl).2.1 rfl rfl,
    c1_parse_finalization.2 0⟩

/-- Claim C2 (code bug): the accumulate-character action pushes the
current byte as the unicode scalar of the same numeric value, and a Rust
String re-encodes a scalar at or above 0x80 as two UTF-8 bytes, so
multi-byte UTF-8 content inside a string does NOT reach the decoded
String byte-identically.  The two-byte sequence C3 A9 inside a quoted
string decodes to a String whose UTF-8 bytes are C3 83 C2 A9. -/
theorem c2_string_bytes_transcoded :
    do_action 11 195 ⟨[], "", ""⟩ = ARes.ok ⟨[], ("").push (Char.ofNat 195), ""⟩ ∧
    strUtf8 (("").push (Char.ofNat 195)) = [195, 131] ∧
    parse 50 [34, 195, 169, 34] =
      Except.ok (Value.string (String.mk [Char.ofNat 195, Char.ofNat 169])) ∧
    strUtf8 (String.mk [Char.ofNat 195, Char.ofNat 169]) = [195, 131, 194, 169] ∧
    ([195, 131, 194, 169] : List Nat) ≠ [195, 169] :=
  ⟨rfl, rfl, rfl, rfl, by decide⟩

/-- Claim C3 (code bug): for a byte that is no short escape, the error of
action 13 formats the byte with the Display of u8, i.e. as its DECIMAL
numeral: the carried text for byte 0x71 (q) is backslash-113, not
backslash-q, both at the action itself and through a full decode of the
input quote backslash q quote. -/
theorem c3_invalid_escape_decimal :
    do_action 13 113 ⟨[], "", ""⟩ =
      ARes.err (JsonError.InvalidEscape ("\\113")) ⟨[], "", ""⟩ ∧
    ("\\113" : String) ≠ ("\\q") ∧
    parse 50 [34, 92, 113, 34] =
      Except.error (RtErr.json (JsonError.InvalidEscape ("\\113"))) :=
  ⟨rfl, by decide, rfl⟩

/-- Claim C4 counterexample: a FAILED escape resolution does not clear
the escape accumulator: resolving the surrogate digits D800 through
action 14 fails and returns with the four digits still in place. -/
theorem c4_counterexample :
    do_action 14 63 ⟨[], "", ("D800")⟩ =
      ARes.err (JsonError.InvalidEscape ("\\uD800")) ⟨[], "", ("D800")⟩ ∧
    ("D800" : String) ≠ "" :=
  ⟨rfl, by decide⟩

/-- Claim C4 (amended): the escape accumulator is empty after every
SUCCESSFUL escape resolution (action 13 or 14); a failed resolution
returns early and leaves the accumulator exactly as it was (the decode
aborts with the error, so the stale content is never observed). -/
theorem c4_escape_cleared_amended (st : PState) (a ch : Nat) (ha : a = 13 ∨ a = 14) :
    (∀ st1, do_action a ch st = ARes.ok st1 → st1.es = "") ∧
    (∀ e st2, do_action a ch st = ARes.err e st2 → st2.es = st.es) := by
  rcases ha with ha | ha <;> subst ha
  · constructor
    · intro st1 h
      simp only [do_action] at h
      norm_num at h
      split_ifs at h <;> injection h with h5 <;> rw [← h5]
    · intro e st2 h
      simp only [do_action] at h
      norm_num at h
      split_ifs at h <;> injection h with h5 h6 <;> rw [← h6]
  · constructor
    · intro st1 h
      simp only [do_action] at h
      norm_num at h
      rcases hp : parseU16Hex st.es with _ | n <;> rw [hp] at h <;> dsimp only at h
      · injection h
      · split_ifs at h <;> injection h with h5 <;> rw [← h5]
    · intro e st2 h
      simp only [do_action] at h
      norm_num at h
      rcases hp : parseU16Hex st.es with _ | n <;> rw [hp] at h <;> dsimp only at h
      · injection h with h5 h6
        rw [← h6]
      · split_ifs at h <;> injection h with h5 h6 <;> rw [← h6]

/-- Witness for C4 at a successful short-escape resolution. -/
theorem c4_escape_cleared_amended_witness :
    PState.es ⟨[], ("").push (Char.ofNat 10), ""⟩ = "" ∧
    do_action 13 110 ⟨[], "", ("zz")⟩ =
      ARes.ok ⟨[], ("").push (Char.ofNat 10), ""⟩ :=
  ⟨(c4_escape_cleared_amended ⟨[], "", ("zz")⟩ 13 110 (Or.inl rfl)).1 _ rfl, rfl⟩

/-- Claim C5 counterexample: a lexically valid integer literal whose
value exceeds the signed 64-bit range makes the push-int action panic
instead of succeeding: 9223372036854775808 is all digits, yet action 9
hits the failed-unwrap panic. -/
theorem c5_counterexample :
    isIntLit ("9223372036854775808") = true ∧
    do_action 9 63 ⟨[], ("9223372036854775808"), ""⟩ = ARes.panicked :=
  ⟨rfl, rfl⟩

/-- Claim C5 (amended): for every raw-accumulator content that is
lexically a valid signed integer literal AND whose value fits the signed
64-bit range, the push-int action succeeds: the value is pushed, the
accumulator cleared, and the panic branch is not taken. -/
theorem c5_push_int_amended (ds : List Value) (ss es : String) (ch : Nat)
    (h : isIntLit ss = true)
    (h1 : -(9223372036854775808 : Int) ≤ intLitVal ss)
    (h2 : intLitVal ss ≤ 9223372036854775807) :
    do_action 9 ch ⟨ds, ss, es⟩ = ARes.ok ⟨Value.int (intLitVal ss) :: ds, "", es⟩ := by
  simp [do_action, parseI64_eq_of_isIntLit ss h h1 h2]

/-- Witness for C5 at the literal minus-42. -/
theorem c5_push_int_amended_witness :
    do_action 9 63 ⟨[], ("-42"), ""⟩ =
      ARes.ok ⟨[Value.int (intLitVal ("-42"))], "", ""⟩ :=
  c5_push_int_amended [] ("-42") "" 63 rfl (by decide) (by decide)

/-- Claim C6: the driver follows the three-case dispatch: a packed code
whose action half and control half are both all-ones fails with the
Syntax error; a control half equal to the pop marker runs the action, pops
the control stack into the current state and retries the same byte; any
other control half runs the action, makes the control half the new state
and consumes the byte. -/
theorem c6_parse_ch_dispatch :
    (∀ (tbl : Tables) (fuel cat ch : Nat) (stack : List Nat) (state : Nat) (st : PState),
      tbl.states state cat >>> 8 &&& 0xFF = 0xFF →
      tbl.states state cat &&& 0xFF = 0xFF →
      parse_ch tbl (fuel + 1) cat ch stack state st =
        Except.error (RtErr.json JsonError.Syntax)) ∧
    (∀ (tbl : Tables) (fuel cat ch top : Nat) (rest : List Nat) (state : Nat)
        (st st1 : PState),
      tbl.states state cat >>> 8 &&& 0xFF < 0x80 →
      tbl.states state cat &&& 0xFF = 0xFF →
      runAction (tbl.states state cat >>> 8 &&& 0xFF) ch st = ARes.ok st1 →
      parse_ch tbl (fuel + 1) cat ch (top :: rest) state st =
        parse_ch tbl fuel cat ch rest top st1) ∧
    (∀ (tbl : Tables) (fuel cat ch : Nat) (stack : List Nat) (state : Nat)
        (st st1 : PState),
      tbl.states state cat >>> 8 &&& 0xFF < 0x80 →
      tbl.states state cat &&& 0xFF ≠ 0xFF →
      runAction (tbl.states state cat >>> 8 &&& 0xFF) ch st = ARes.ok st1 →
      parse_ch tbl (fuel + 1) cat ch stack state st =
        Except.ok (tbl.states state cat &&& 0xFF, stack, st1)) := by
  refine ⟨?_, ?_, ?_⟩
  · intro tbl fuel cat ch stack state st h1 h2
    simp [parse_ch, parse_step, h1, h2]
  · intro tbl fuel cat ch top rest state st st1 h1 h2 h3
    have hA : tbl.states state cat >>> 8 &&& 0xFF ≠ 0xFF := by omega
    have hle : ¬ 0x80 ≤ tbl.states state cat >>> 8 &&& 0xFF := by omega
    simp [parse_ch, parse_step, hA, hle, h2, h3]
  · intro tbl fuel cat ch stack state st st1 h1 h2 h3
    have hA : tbl.states state cat >>> 8 &&& 0xFF ≠ 0xFF := by omega
    have hle : ¬ 0x80 ≤ tbl.states state cat >>> 8 &&& 0xFF := by omega
    simp [parse_ch, parse_step, hA, hle, h2, h3]

/-- An all-ones table, for exercising the syntax sentinel. -/
def tblSentinel : Tables := ⟨fun _ _ => 0xFFFF, fun _ => 0, fun _ => 0⟩

/-- A table whose every entry is a pure pop with no action. -/
def tblPop : Tables := ⟨fun _ _ => 0xFF, fun _ => 0, fun _ => 0⟩

/-- A table whose every entry shifts to state 5 with no action. -/
def tblShift : Tables := ⟨fun _ _ => 5, fun _ => 0, fun _ => 0⟩

/-- Witness for C6 on three one-entry tables, one per dispatch case. -/
theorem c6_parse_ch_dispatch_witness :
    parse_ch tblSentinel 1 0 0 [] 0 ⟨[], "", ""⟩ =
      Except.error (RtErr.json JsonError.Syntax) ∧
    parse_ch tblPop 1 0 0 [7] 0 ⟨[], "", ""⟩ = parse_ch tblPop 0 0 0 [] 7 ⟨[], "", ""⟩ ∧
    parse_ch tblShift 1 0 0 [] 0 ⟨[], "", ""⟩ = Except.ok (5, [], ⟨[], "", ""⟩) :=
  ⟨c6_parse_ch_dispatch.1 tblSentinel 0 0 0 [] 0 ⟨[], "", ""⟩ rfl rfl,
    c6_parse_ch_dispatch.2.1 tblPop 0 0 0 7 [] 0 ⟨[], "", ""⟩ ⟨[], "", ""⟩
      (by decide) rfl rfl,
    c6_parse_ch_dispatch.2.2 tblShift 0 0 0 [] 0 ⟨[], "", ""⟩ ⟨[], "", ""⟩
      (by decide) (by decide) rfl⟩

/-- Claim C7: the unicode-escape action parses the escape accumulator as
hexadecimal forming a 16-bit code unit; on parse failure or an invalid
scalar value (a surrogate half) it fails with InvalidEscape carrying
backslash-u plus the digits and leaves the context untouched; otherwise
it appends the decoded character to the raw accumulator and clears the
escape accumulator. -/
theorem c7_unicode_escape (ds : List Value) (ss es : String) (ch : Nat) :
    (parseU16Hex es = none →
      do_action 14 ch ⟨ds, ss, es⟩ =
        ARes.err (JsonError.InvalidEscape (("\\u") ++ es)) ⟨ds, ss, es⟩) ∧
    (∀ n, parseU16Hex es = some n → ¬ Nat.isValidChar n →
      do_action 14 ch ⟨ds, ss, es⟩ =
        ARes.err (JsonError.InvalidEscape (("\\u") ++ es)) ⟨ds, ss, es⟩) ∧
    (∀ n, parseU16Hex es = some n → Nat.isValidChar n →
      do_action 14 ch ⟨ds, ss, es⟩ = ARes.ok ⟨ds, ss.push (Char.ofNat n), ""⟩) := by
  refine ⟨?_, ?_, ?_⟩
  · intro hp
    simp [do_action, hp]
  · intro n hp hv
    simp [do_action, hp, hv]
  · intro n hp hv
    simp [do_action, hp, hv]

/-- Witness for C7 at the escape digits 0041 (the letter A). -/
theorem c7_unicode_escape_witness :
    parseU16Hex ("0041") = some 65 ∧
    do_action 14 63 ⟨[], "", ("0041")⟩ =
      ARes.ok ⟨[], ("").push (Char.ofNat 65), ""⟩ :=
  ⟨rfl, (c7_unicode_escape [] "" ("0041") 63).2.2 65 rfl (by decide)⟩

/-- Claim C8: each of the five short-escape bytes b, t, n, f, r makes
action 13 append exactly the control character 0x08, 0x09, 0x0A, 0x0C,
0x0D to the raw accumulator, leave the escape accumulator empty and
return success. -/
theorem c8_short_escapes (ds : List Value) (ss es : String) :
    do_action 13 98 ⟨ds, ss, es⟩ = ARes.ok ⟨ds, ss.push (Char.ofNat 8), ""⟩ ∧
    do_action 13 116 ⟨ds, ss, es⟩ = ARes.ok ⟨ds, ss.push (Char.ofNat 9), ""⟩ ∧
    do_action 13 110 ⟨ds, ss, es⟩ = ARes.ok ⟨ds, ss.push (Char.ofNat 10), ""⟩ ∧
    do_action 13 102 ⟨ds, ss, es⟩ = ARes.ok ⟨ds, ss.push (Char.ofNat 12), ""⟩ ∧
    do_action 13 114 ⟨ds, ss, es⟩ = ARes.ok ⟨ds, ss.push (Char.ofNat 13), ""⟩ :=
  ⟨rfl, rfl, rfl, rfl, rfl⟩

/-- Claim C9: the object-binding action inserts with last-write-wins
semantics (looking up an inserted key always finds the new value, with no
error raised), and decoding an object with the duplicate key a bound to 1
then 2 yields the object where a maps to 2. -/
theorem c9_duplicate_key_last_wins :
    (∀ (o : List (String × Value)) (k : String) (v : Value),
      objLookup k (objInsert o k v) = some v) ∧
    (∀ (k : String) (v : Value) (o : List (String × Value))
        (rest : List Value) (ss es : String),
      do_action 4 63 ⟨v :: Value.string k :: Value.object o :: rest, ss, es⟩ =
        ARes.ok ⟨Value.object (objInsert o k v) :: rest, ss, es⟩) ∧
    parse 50 [123, 34, 97, 34, 58, 49, 44, 34, 97, 34, 58, 50, 125] =
      Except.ok (Value.object [(("a"), Value.int 2)]) ∧
    objLookup ("a") [(("a"), Value.int 2)] = some (Value.int 2) :=
  ⟨objLookup_objInsert, fun _ _ _ _ _ _ => rfl, rfl, rfl⟩

/-- Claim C10: a pure-reduction entry (control half 0xFF of a
non-sentinel code) reached with an empty control stack makes the driver
panic (the unwrap of the pop), not return a JsonError. -/
theorem c10_empty_stack_pop_panics (tbl : Tables) (fuel cat ch state : Nat)
    (st st1 : PState)
    (h1 : tbl.states state cat >>> 8 &&& 0xFF < 0x80)
    (h2 : tbl.states state cat &&& 0xFF = 0xFF)
    (h3 : runAction (tbl.states state cat >>> 8 &&& 0xFF) ch st = ARes.ok st1) :
    parse_ch tbl (fuel + 1) cat ch [] state st = Except.error RtErr.panicked := by
  have hA : tbl.states state cat >>> 8 &&& 0xFF ≠ 0xFF := by omega
  have hle : ¬ 0x80 ≤ tbl.states state cat >>> 8 &&& 0xFF := by omega
  simp [parse_ch, parse_step, hA, hle, h2, h3]

/-- Witness for C10 on the all-pop table with an empty control stack. -/
theorem c10_empty_stack_pop_panics_witness :
    parse_ch tblPop 1 0 0 [] 0 ⟨[], "", ""⟩ = Except.error RtErr.panicked :=
  c10_empty_stack_pop_panics tblPop 0 0 0 0 ⟨[], "", ""⟩ ⟨[], "", ""⟩
    (by decide) rfl rfl

end CheeryJson
